import Mathlib

/-!
Verification of the Bluetooth Current Time Service (CTS) GATT server
(`bluetooth_cts_server.py`), as a shallow embedding in Lean 4.

The embedding covers the pure protocol logic of the server:
- the 10-byte Current-Time encoding and the 2-byte Local-Time-Information
  encoding produced by the two characteristic read handlers,
- the GATT object model (`Application` / `Service` / `Characteristic`) and its
  `GetManagedObjects` view,
- the `GetAll` property queries with their interface checks,
- the `Advertisement` value object and its `get_properties` output.

Host interaction (`datetime.now`, `pytz`, the `TZ` environment variable) is
modelled by an `Env` record carrying the values those calls return at the
instant of one read.  D-Bus exceptions are modelled by `Except` with a
`DBusError` payload.  Logging is modelled by the list of levels of the log
calls the handler performs, in order.
-/

namespace BluetoothCTS

/-- `CTS_SERVICE_UUID` from the source. -/
def CTS_SERVICE_UUID : String := "00001805-0000-1000-8000-00805f9b34fb"

/-- `CURRENT_TIME_CHAR_UUID` from the source. -/
def CURRENT_TIME_CHAR_UUID : String := "00002a2b-0000-1000-8000-00805f9b34fb"

/-- `LOCAL_TIME_INFO_CHAR_UUID` from the source. -/
def LOCAL_TIME_INFO_CHAR_UUID : String := "00002a0f-0000-1000-8000-00805f9b34fb"

/-- `GATT_SERVICE_IFACE` from the source. -/
def GATT_SERVICE_IFACE : String := "org.bluez.GattService1"

/-- `GATT_CHRC_IFACE` from the source. -/
def GATT_CHRC_IFACE : String := "org.bluez.GattCharacteristic1"

/-- `LE_ADVERTISEMENT_IFACE` from the source. -/
def LE_ADVERTISEMENT_IFACE : String := "org.bluez.LEAdvertisement1"

/-- A D-Bus exception as raised by `dbus.exceptions.DBusException(name, message)`. -/
structure DBusError where
  name : String
  message : String
deriving DecidableEq, Repr

/-- The exception raised by the base `Characteristic.read_value` (source lines 141-146). -/
def notSupportedError : DBusError :=
  ⟨"org.bluez.Error.NotSupported", "Read not supported"⟩

/-- The exception raised by every `GetAll` on an unknown interface. -/
def invalidArgumentsError : DBusError :=
  ⟨"org.bluez.Error.InvalidArguments", "Unknown interface"⟩

/-- Level of one `logger.<level>(...)` call. -/
inductive LogLevel
  | debug
  | info
  | warning
  | error
deriving DecidableEq, Repr

/-- The value of one timezone-aware `datetime` as observed by a read handler:
the broken-down local date/time fields plus `utcoffset().total_seconds()`
(`none` models `utcoffset()` returning `None`).  Offsets are whole seconds,
which is what every IANA zone provides. -/
structure ZonedNow where
  year : Nat
  month : Nat
  day : Nat
  hour : Nat
  minute : Nat
  second : Nat
  microsecond : Nat
  isoWeekday : Nat
  utcOffsetSeconds : Option Int
deriving DecidableEq, Repr

/-- The host environment at the instant of one characteristic read:
`tzEnv` is `os.environ.get("TZ")`; `pytzNow name` is the result of
`datetime.now(pytz.timezone(name))`, with `none` when `pytz.timezone`
raises (unknown zone); `hostNow` is `datetime.now().astimezone()`. -/
structure Env where
  tzEnv : Option String
  pytzNow : String → Option ZonedNow
  hostNow : ZonedNow

/-- The 10-byte Current-Time encoding (source lines 190-212): year low byte,
year high byte, month, day, hour, minute, second, ISO weekday, fractions-256,
adjust reason.  `year & 0xFF` is `year % 256` and `(year >> 8) & 0xFF` is
`year / 256 % 256`.  The source computes the fractions byte as
`int((microsecond / 1000000.0) * 256)` in IEEE double arithmetic; for every
`microsecond < 10^6` this equals `microsecond * 256 / 1000000` in exact
natural division, because non-integer values of `microsecond * 256 / 10^6`
are at least `64 / 10^6` away from an integer while the double rounding of
`microsecond / 1000000.0` perturbs the product by less than `2^-45`. -/
def ctsEncode (now : ZonedNow) : List Nat :=
  [ now.year % 256,
    now.year / 256 % 256,
    now.month,
    now.day,
    now.hour,
    now.minute,
    now.second,
    now.isoWeekday,
    now.microsecond * 256 / 1000000,
    0 ]

/-- The timezone resolution performed by `CurrentTimeCharacteristic.read_value`
(source lines 176-187): use `pytz.timezone(TZ)` when `TZ` is set and resolves,
otherwise fall back to `datetime.now().astimezone()`. -/
def resolvedNow (env : Env) : ZonedNow :=
  match env.tzEnv with
  | some name =>
    match env.pytzNow name with
    | some now => now
    | none => env.hostNow
  | none => env.hostNow

/-- `CurrentTimeCharacteristic.read_value` (source lines 157-218): resolve the
timestamp, encode it, and log.  A valid configured zone logs info; an invalid
one logs a warning and falls back to the host zone; an unset `TZ` logs info;
the trailing info is the "BLE time sent" log.  The handler never raises: the
only raising call, `pytz.timezone`, sits inside a `try` whose `except` catches
every exception. -/
def currentTimeRead (env : Env) : List Nat × List LogLevel :=
  match env.tzEnv with
  | some name =>
    match env.pytzNow name with
    | some now => (ctsEncode now, [LogLevel.info, LogLevel.info])
    | none => (ctsEncode env.hostNow, [LogLevel.warning, LogLevel.info])
  | none => (ctsEncode env.hostNow, [LogLevel.info, LogLevel.info])

/-- The Local-Time-Information timezone byte (source line 243 and 247):
`int(utc_offset / 900) & 0xFF`.  Python `int()` on a float truncates toward
zero, which on the whole-second offsets produced by `total_seconds()` is
exactly `Int.tdiv`; `n & 0xFF` on a Python int is the nonnegative residue
`n % 256`, i.e. the two's-complement low byte. -/
def tzOffsetByte (utc_offset : Int) : Nat :=
  ((Int.tdiv utc_offset 900) % 256).toNat

/-- `LocalTimeInfoCharacteristic.read_value` (source lines 229-252): take the
offset of the host local zone (`datetime.now().astimezone()`), defaulting to
`0` when `utcoffset()` is `None`, and emit the offset byte followed by the
DST byte `0`.  The configured `TZ` zone is not consulted here. -/
def localTimeInfoRead (env : Env) : List Nat × List LogLevel :=
  let utc_offset : Int :=
    match env.hostNow.utcOffsetSeconds with
    | some o => o
    | none => 0
  ([tzOffsetByte utc_offset, 0], [LogLevel.info])

/-- Ranges a real timezone-aware Python `datetime` satisfies: `datetime`
years span 1..9999, the calendar fields are in range, `microsecond < 10^6`,
and `isoweekday()` is 1..7. -/
def ValidZonedNow (n : ZonedNow) : Prop :=
  1 ≤ n.year ∧ n.year ≤ 9999 ∧
  1 ≤ n.month ∧ n.month ≤ 12 ∧
  1 ≤ n.day ∧ n.day ≤ 31 ∧
  n.hour ≤ 23 ∧ n.minute ≤ 59 ∧ n.second ≤ 59 ∧
  n.microsecond ≤ 999999 ∧
  1 ≤ n.isoWeekday ∧ n.isoWeekday ≤ 7

instance (n : ZonedNow) : Decidable (ValidZonedNow n) := by
  unfold ValidZonedNow
  infer_instance

/-- Which `read_value` implementation a characteristic object carries: the
base class raises NotSupported (source lines 141-146); the two subclasses
override it with the two encoders. -/
inductive ReadBehavior
  | unsupported
  | currentTime
  | localTimeInfo
deriving DecidableEq, Repr

/-- The value entry of a characteristic in `get_properties` (source lines
115-122): owning service path, UUID, flags. -/
structure CharProps where
  servicePath : String
  uuid : String
  flags : List String
deriving DecidableEq, Repr

/-- A GATT characteristic object.  `path` and `servicePath` are fixed at
construction (`Characteristic.__init__`, source lines 107-113); `servicePath`
is the owning service's path, which never changes after construction, so the
back-reference `self.service.get_path()` is embedded as the path value. -/
structure Characteristic where
  path : String
  uuid : String
  flags : List String
  servicePath : String
  readBehavior : ReadBehavior
deriving DecidableEq, Repr

/-- A GATT service object (source lines 63-92). -/
structure Service where
  path : String
  uuid : String
  primary : Bool
  characteristics : List Characteristic
deriving DecidableEq, Repr

/-- Zero-padding of `f"char{index:04d}"`. -/
def pad4 (n : Nat) : String :=
  let s := toString n
  String.mk (List.replicate (4 - s.length) '0') ++ s

/-- `Service.__init__` (source lines 68-74): path is `PATH_BASE` plus the
index; the characteristics list starts empty. -/
def Service.create (index : Nat) (uuid : String) (primary : Bool) : Service :=
  { path := "/org/bluez/gatt/service" ++ toString index
    uuid := uuid
    primary := primary
    characteristics := [] }

/-- `Service.add_characteristic` (source lines 91-92): append. -/
def Service.add_characteristic (s : Service) (c : Characteristic) : Service :=
  { s with characteristics := s.characteristics ++ [c] }

/-- `Characteristic.__init__` (source lines 107-113): the path is the owning
service's path plus `/char` and the zero-padded index. -/
def Characteristic.create (s : Service) (index : Nat) (uuid : String)
    (flags : List String) (rb : ReadBehavior) : Characteristic :=
  { path := s.path ++ "/char" ++ pad4 index
    uuid := uuid
    flags := flags
    servicePath := s.path
    readBehavior := rb }

/-- `Characteristic.get_properties` value map (source lines 115-122). -/
def Characteristic.props (c : Characteristic) : CharProps :=
  { servicePath := c.servicePath, uuid := c.uuid, flags := c.flags }

/-- The value entry of a service in `get_properties` (source lines 76-86):
UUID, primary flag, and the paths of the owned characteristics. -/
structure ServiceProps where
  uuid : String
  primary : Bool
  characteristicPaths : List String
deriving DecidableEq, Repr

/-- `Service.get_properties` value map (source lines 76-86). -/
def Service.props (s : Service) : ServiceProps :=
  { uuid := s.uuid
    primary := s.primary
    characteristicPaths := s.characteristics.map (fun c => c.path) }

/-- The interface-keyed property map of one object in the
`GetManagedObjects` response. -/
inductive ObjProps
  | service (p : ServiceProps)
  | chrc (p : CharProps)
deriving DecidableEq, Repr

/-- The GATT application (source lines 39-60): path `/` and a service list. -/
structure Application where
  services : List Service
deriving DecidableEq, Repr

/-- `Application.add_service` (source lines 50-51): append. -/
def Application.add_service (app : Application) (s : Service) : Application :=
  { services := app.services ++ [s] }

/-- `Application.GetManagedObjects` (source lines 53-60): for each service,
one entry for the service then one entry per characteristic, each entry being
path, interface name, and property map.  The Python response is a dict keyed
by path; with pairwise-distinct paths (which D-Bus object registration
enforces: exporting a second object at an existing path raises) the dict has
exactly the pairs of this insertion-ordered association list. -/
def Application.GetManagedObjects (app : Application) :
    List (String × String × ObjProps) :=
  app.services.flatMap fun s =>
    (s.path, GATT_SERVICE_IFACE, ObjProps.service s.props) ::
      s.characteristics.map fun c => (c.path, GATT_CHRC_IFACE, ObjProps.chrc c.props)

/-- The object paths of the `GetManagedObjects` response, in order. -/
def gmoKeys (app : Application) : List String :=
  (app.GetManagedObjects).map (fun e => e.1)

/-- The object paths of the service-level entries of the
`GetManagedObjects` response. -/
def gmoServiceKeys (app : Application) : List String :=
  (app.GetManagedObjects).filterMap fun e =>
    match e.2.2 with
    | ObjProps.service _ => some e.1
    | ObjProps.chrc _ => none

/-- An application built through the constructors: every characteristic held
by a service was constructed with that service, so its declared service path
is the holder's path. -/
def Application.WellFormed (app : Application) : Prop :=
  ∀ s ∈ app.services, ∀ c ∈ s.characteristics, c.servicePath = s.path

instance (app : Application) : Decidable app.WellFormed := by
  unfold Application.WellFormed
  infer_instance

/-- `Characteristic.read_value` dispatch: the subclass override when there is
one (source lines 157-218 and 229-252), the base NotSupported raise
otherwise (source lines 141-146). -/
def Characteristic.read_value (c : Characteristic) (env : Env) :
    Except DBusError (List Nat × List LogLevel) :=
  match c.readBehavior with
  | ReadBehavior.unsupported => Except.error notSupportedError
  | ReadBehavior.currentTime => Except.ok (currentTimeRead env)
  | ReadBehavior.localTimeInfo => Except.ok (localTimeInfoRead env)

/-- `Characteristic.ReadValue` (source lines 136-139): log debug, then
delegate to `read_value`; an exception raised there propagates to the bus. -/
def Characteristic.ReadValue (c : Characteristic) (env : Env) :
    Except DBusError (List Nat) × List LogLevel :=
  match c.read_value env with
  | Except.ok (v, logs) => (Except.ok v, LogLevel.debug :: logs)
  | Except.error e => (Except.error e, [LogLevel.debug])

/-- `Service.GetAll` (source lines 94-101): raise InvalidArguments on any
interface other than the GATT service interface, otherwise return the
property map (`self.get_properties()[GATT_SERVICE_IFACE]`). -/
def Service.GetAll (s : Service) (interface : String) :
    Except DBusError ServiceProps :=
  if interface ≠ GATT_SERVICE_IFACE then Except.error invalidArgumentsError
  else Except.ok s.props

/-- `Characteristic.GetAll` (source lines 127-134). -/
def Characteristic.GetAll (c : Characteristic) (interface : String) :
    Except DBusError CharProps :=
  if interface ≠ GATT_CHRC_IFACE then Except.error invalidArgumentsError
  else Except.ok c.props

/-- `CTSService.__init__` (source lines 255-265): a primary service with the
CTS UUID holding the Current-Time characteristic at index 0 and the
Local-Time-Information characteristic at index 1, each constructed with the
service itself. -/
def CTSService.create (index : Nat) : Service :=
  let s := Service.create index CTS_SERVICE_UUID true
  let s := s.add_characteristic
    (Characteristic.create s 0 CURRENT_TIME_CHAR_UUID ["read"] ReadBehavior.currentTime)
  s.add_characteristic
    (Characteristic.create s 1 LOCAL_TIME_INFO_CHAR_UUID ["read"] ReadBehavior.localTimeInfo)

/-- One value in the advertisement's property map. -/
inductive AdvPropVal
  | str (s : String)
  | strArray (l : List String)
  | boolean (b : Bool)
deriving DecidableEq, Repr

/-- `Advertisement.__init__` (source lines 273-280): both optional fields
start as `None` and the TX-power flag as `False`. -/
structure Advertisement where
  path : String
  ad_type : String
  service_uuids : Option (List String)
  local_name : Option String
  include_tx_power : Bool
deriving DecidableEq, Repr

/-- `Advertisement.__init__` (source lines 273-280). -/
def Advertisement.create (index : Nat) (advertising_type : String) : Advertisement :=
  { path := "/org/bluez/gatt/advertisement" ++ toString index
    ad_type := advertising_type
    service_uuids := none
    local_name := none
    include_tx_power := false }

/-- `Advertisement.add_service_uuid` (source lines 296-299): when the backing
list is falsy (`None` or empty) replace it with `[]`, then append. -/
def Advertisement.add_service_uuid (a : Advertisement) (uuid : String) : Advertisement :=
  let cur : List String :=
    match a.service_uuids with
    | none => []
    | some l => l
  { a with service_uuids := some (cur ++ [uuid]) }

/-- `Advertisement.add_local_name` (source lines 301-302). -/
def Advertisement.add_local_name (a : Advertisement) (name : String) : Advertisement :=
  { a with local_name := some name }

/-- The inner property dict of `Advertisement.get_properties` (source lines
282-291): `Type` always; `ServiceUUIDs` only when the field `is not None`;
`LocalName` only when the field `is not None`; `IncludeTxPower` only when the
flag is truthy. -/
def Advertisement.adv_properties (a : Advertisement) : List (String × AdvPropVal) :=
  [("Type", AdvPropVal.str a.ad_type)]
    ++ (match a.service_uuids with
        | some l => [("ServiceUUIDs", AdvPropVal.strArray l)]
        | none => [])
    ++ (match a.local_name with
        | some n => [("LocalName", AdvPropVal.str n)]
        | none => [])
    ++ (if a.include_tx_power then [("IncludeTxPower", AdvPropVal.boolean a.include_tx_power)]
        else [])

/-- `Advertisement.get_properties` (source lines 282-291): the inner dict
keyed by the advertisement interface. -/
def Advertisement.get_properties (a : Advertisement) :
    List (String × List (String × AdvPropVal)) :=
  [(LE_ADVERTISEMENT_IFACE, a.adv_properties)]

/-- `Advertisement.GetAll` (source lines 304-311). -/
def Advertisement.GetAll (a : Advertisement) (interface : String) :
    Except DBusError (List (String × AdvPropVal)) :=
  if interface ≠ LE_ADVERTISEMENT_IFACE then Except.error invalidArgumentsError
  else Except.ok a.adv_properties

/-- One mutation of an `Advertisement` after construction, as performed in
`main` (source lines 421-424): `add_service_uuid`, `add_local_name`, or the
direct field assignment `adv.include_tx_power = b`. -/
inductive AdvOp
  | addServiceUUID (uuid : String)
  | addLocalName (name : String)
  | setIncludeTxPower (b : Bool)
deriving DecidableEq, Repr

/-- Apply one mutation. -/
def Advertisement.applyOp (a : Advertisement) : AdvOp → Advertisement
  | AdvOp.addServiceUUID u => a.add_service_uuid u
  | AdvOp.addLocalName n => a.add_local_name n
  | AdvOp.setIncludeTxPower b => { a with include_tx_power := b }

/-- Apply a sequence of mutations in order. -/
def Advertisement.applyOps (a : Advertisement) (ops : List AdvOp) : Advertisement :=
  ops.foldl Advertisement.applyOp a

/-- `Application.__init__` (source lines 42-45): empty service list. -/
def Application.create : Application :=
  { services := [] }

/-- The application `main` builds (source lines 413-415): the empty
application with the CTS service added. -/
def appCTS : Application :=
  Application.create.add_service (CTSService.create 0)

/-- Sign extension of the one-byte timezone field, as a CTS client decodes
it: values 128..255 represent the negatives −128..−1. -/
def decodeTzOffset (b : Nat) : Int :=
  if b < 128 then (b : Int) else (b : Int) - 256

/-- The timezone byte as claim C2 words it: `floor(utc_offset_seconds / 900)`
truncated into one byte with two's-complement wrap.  Written from the claim's
words, to be compared with `tzOffsetByte`, which embeds the source. -/
def tzOffsetByteFloorSpec (utc_offset : Int) : Nat :=
  ((Int.fdiv utc_offset 900) % 256).toNat

/-- The §8 scenario: 2024-03-15 14:30:45.500000, a Friday, in a UTC+2 zone. -/
def envScenario : Env :=
  { tzEnv := none
    pytzNow := fun _ => none
    hostNow := ⟨2024, 3, 15, 14, 30, 45, 500000, 5, some 7200⟩ }

/-- An environment whose configured zone name does not resolve. -/
def envBadTz : Env :=
  { tzEnv := some "Not/AZone"
    pytzNow := fun _ => none
    hostNow := ⟨2024, 3, 15, 14, 30, 45, 500000, 5, some 7200⟩ }

/-- An environment whose host local zone is 100 seconds west of UTC, an
offset that is negative and not a whole multiple of 900. -/
def envNegOffset : Env :=
  { tzEnv := none
    pytzNow := fun _ => none
    hostNow := ⟨2024, 1, 1, 0, 0, 0, 0, 1, some (-100)⟩ }

/-- A "now" in the configured zone, two hours east of UTC. -/
def znConfigC3 : ZonedNow := ⟨2024, 6, 1, 12, 0, 0, 0, 6, some 7200⟩

/-- The same instant seen by the host local zone, at UTC. -/
def znHostC3 : ZonedNow := ⟨2024, 6, 1, 10, 0, 0, 0, 6, some 0⟩

/-- An environment whose configured zone (UTC+2) resolves but differs from
the host local zone (UTC). -/
def envSplitZones : Env :=
  { tzEnv := some "Etc/GMT-2"
    pytzNow := fun s => if s = "Etc/GMT-2" then some znConfigC3 else none
    hostNow := znHostC3 }

/-- A characteristic constructed from the base class alone: no read flag and
no `read_value` override. -/
def chrcBare : Characteristic :=
  Characteristic.create (Service.create 1 CTS_SERVICE_UUID true) 0
    "00002a00-0000-1000-8000-00805f9b34fb" [] ReadBehavior.unsupported

/-- A plain service fixture. -/
def svcPlain : Service :=
  Service.create 0 CTS_SERVICE_UUID true

/-- A freshly constructed advertisement fixture. -/
def advInit : Advertisement :=
  Advertisement.create 0 "peripheral"

/-- The Current-Time payload is the CTS encoding of the resolved timestamp,
whichever branch of the timezone resolution is taken. -/
theorem currentTimeRead_fst (env : Env) :
    (currentTimeRead env).1 = ctsEncode (resolvedNow env) := by
  unfold currentTimeRead resolvedNow
  rcases htz : env.tzEnv with _ | name
  · simp only [htz]
  · simp only [htz]
    rcases hpy : env.pytzNow name with _ | now <;> simp only [hpy]

/-- C1: for every valid timezone-aware timestamp, the Current-Time read
handler returns exactly 10 bytes in the fixed order year-low, year-high,
month, day, hour, minute, second, ISO weekday, fractions, adjust-reason;
every byte is below 256, little-endian decoding of the first two bytes
reproduces the year, the direct fields reproduce the date/time to
whole-second precision, and the fractions byte is
`microsecond * 256 / 1000000`, i.e. the floor of
`microsecond / 1000000 * 256`. -/
theorem currentTime_payload_roundtrip (env : Env)
    (h : ValidZonedNow (resolvedNow env)) :
    (currentTimeRead env).1 = ctsEncode (resolvedNow env) ∧
    (currentTimeRead env).1.length = 10 ∧
    (∀ b ∈ (currentTimeRead env).1, b < 256) ∧
    (currentTimeRead env).1.getD 0 0 + 256 * (currentTimeRead env).1.getD 1 0
      = (resolvedNow env).year ∧
    (currentTimeRead env).1.getD 2 0 = (resolvedNow env).month ∧
    (currentTimeRead env).1.getD 3 0 = (resolvedNow env).day ∧
    (currentTimeRead env).1.getD 4 0 = (resolvedNow env).hour ∧
    (currentTimeRead env).1.getD 5 0 = (resolvedNow env).minute ∧
    (currentTimeRead env).1.getD 6 0 = (resolvedNow env).second ∧
    (currentTimeRead env).1.getD 7 0 = (resolvedNow env).isoWeekday ∧
    (currentTimeRead env).1.getD 8 0 = (resolvedNow env).microsecond * 256 / 1000000 ∧
    (currentTimeRead env).1.getD 9 0 = 0 := by
  rw [currentTimeRead_fst]
  obtain ⟨h1, h2, h3, h4, h5, h6, h7, h8, h9, h10, h11, h12⟩ := h
  refine ⟨rfl, rfl, ?_, ?_, rfl, rfl, rfl, rfl, rfl, rfl, rfl, rfl⟩
  · intro b hb
    simp only [ctsEncode, List.mem_cons, List.not_mem_nil, or_false] at hb
    rcases hb with rfl | rfl | rfl | rfl | rfl | rfl | rfl | rfl | rfl | rfl
    all_goals omega
  · show (resolvedNow env).year % 256 + 256 * ((resolvedNow env).year / 256 % 256)
      = (resolvedNow env).year
    omega

/-- C1 witness: the round-trip theorem at the concrete §8 scenario. -/
theorem currentTime_payload_roundtrip_witness :
    ValidZonedNow (resolvedNow envScenario) ∧
    ((currentTimeRead envScenario).1 = ctsEncode (resolvedNow envScenario) ∧
      (currentTimeRead envScenario).1.length = 10 ∧
      (∀ b ∈ (currentTimeRead envScenario).1, b < 256) ∧
      (currentTimeRead envScenario).1.getD 0 0
          + 256 * (currentTimeRead envScenario).1.getD 1 0
        = (resolvedNow envScenario).year ∧
      (currentTimeRead envScenario).1.getD 2 0 = (resolvedNow envScenario).month ∧
      (currentTimeRead envScenario).1.getD 3 0 = (resolvedNow envScenario).day ∧
      (currentTimeRead envScenario).1.getD 4 0 = (resolvedNow envScenario).hour ∧
      (currentTimeRead envScenario).1.getD 5 0 = (resolvedNow envScenario).minute ∧
      (currentTimeRead envScenario).1.getD 6 0 = (resolvedNow envScenario).second ∧
      (currentTimeRead envScenario).1.getD 7 0 = (resolvedNow envScenario).isoWeekday ∧
      (currentTimeRead envScenario).1.getD 8 0
        = (resolvedNow envScenario).microsecond * 256 / 1000000 ∧
      (currentTimeRead envScenario).1.getD 9 0 = 0) :=
  ⟨by decide, currentTime_payload_roundtrip envScenario (by decide)⟩

/-- C7: when the configured timezone name fails to resolve, the Current-Time
read logs a warning, transparently substitutes the host local timezone, and
returns a normal 10-byte payload.  The handler is a total function of the
environment — the embedding has no failing path, matching the source where
the only raising call is wrapped in a catch-all `try`/`except`. -/
theorem invalid_timezone_fallback (env : Env) (name : String)
    (htz : env.tzEnv = some name) (hbad : env.pytzNow name = none) :
    (currentTimeRead env).1 = ctsEncode env.hostNow ∧
    (currentTimeRead env).1.length = 10 ∧
    LogLevel.warning ∈ (currentTimeRead env).2 := by
  unfold currentTimeRead
  simp [htz, hbad, ctsEncode]

/-- C7 witness: the fallback theorem at a concrete unresolvable zone name. -/
theorem invalid_timezone_fallback_witness :
    (envBadTz.tzEnv = some "Not/AZone" ∧ envBadTz.pytzNow "Not/AZone" = none) ∧
    ((currentTimeRead envBadTz).1 = ctsEncode envBadTz.hostNow ∧
      (currentTimeRead envBadTz).1.length = 10 ∧
      LogLevel.warning ∈ (currentTimeRead envBadTz).2) :=
  ⟨⟨rfl, rfl⟩, invalid_timezone_fallback envBadTz "Not/AZone" rfl rfl⟩

/-- C2 counterexample: at `utc_offset_seconds = -100` the Local-Time payload
byte is `0` — Python `int()` truncates `-100/900` toward zero — while the
claim's `floor(-100/900) = -1`, wrapped into one byte, is `255`. -/
theorem tzOffsetByte_floor_counterexample :
    (localTimeInfoRead envNegOffset).1.getD 0 0 ≠ tzOffsetByteFloorSpec (-100) := by
  decide

/-- C2 amended: byte 1 of the Local-Time-Information payload is the
utc-offset divided by 900 with truncation toward zero (Python `int()`), not
floor, then wrapped into one byte two's-complement; equivalently the
quotient is `sign(offset) * floor(|offset| / 900)`. -/
theorem tzOffsetByte_truncates_toward_zero (env : Env) (o : Int)
    (h : env.hostNow.utcOffsetSeconds = some o) :
    (localTimeInfoRead env).1 = [((Int.tdiv o 900) % 256).toNat, 0] ∧
    Int.tdiv o 900 = o.sign * ((o.natAbs / 900 : Nat) : Int) := by
  constructor
  · unfold localTimeInfoRead tzOffsetByte
    simp [h]
  · rcases o with m | m
    · rcases m with _ | m
      · simp [Int.tdiv]
      · simp [Int.tdiv, Int.sign, Int.natAbs]
    · simp [Int.tdiv, Int.sign, Int.natAbs]

/-- C2 amended witness: the truncation theorem at the concrete offset −100. -/
theorem tzOffsetByte_truncates_toward_zero_witness :
    envNegOffset.hostNow.utcOffsetSeconds = some (-100) ∧
    ((localTimeInfoRead envNegOffset).1 = [((Int.tdiv (-100) 900) % 256).toNat, 0] ∧
      Int.tdiv (-100) 900
        = Int.sign (-100) * ((Int.natAbs (-100) / 900 : Nat) : Int)) :=
  ⟨rfl, tzOffsetByte_truncates_toward_zero envNegOffset (-100) rfl⟩

/-- C8: for every UTC offset that is a whole multiple of 900 seconds with
quotient in the nominal range −48..56, encoding through the Local-Time byte
and decoding back (sign-extending, then multiplying by 900) returns the
original offset. -/
theorem tzOffset_roundtrip_nominal (q : Int) (h1 : -48 ≤ q) (h2 : q ≤ 56) :
    decodeTzOffset (tzOffsetByte (900 * q)) * 900 = 900 * q := by
  unfold tzOffsetByte
  rw [Int.mul_tdiv_cancel_left q (by norm_num)]
  unfold decodeTzOffset
  split_ifs with h <;> omega

/-- C8 witness: the round trip at the §8 scenario offset +7200 s (q = 8). -/
theorem tzOffset_roundtrip_nominal_witness :
    (-48 ≤ (8 : Int) ∧ (8 : Int) ≤ 56) ∧
    decodeTzOffset (tzOffsetByte (900 * 8)) * 900 = 900 * 8 :=
  ⟨by decide, tzOffset_roundtrip_nominal 8 (by decide) (by decide)⟩

/-- C3 counterexample: with the configured zone resolving to UTC+2 while the
host local zone is UTC, the Local-Time-Information payload is `[0, 0]` — the
host zone's offset — not `[tzOffsetByte 7200, 0] = [8, 0]` as the claim
requires, because `LocalTimeInfoCharacteristic.read_value` calls
`datetime.now().astimezone()` and never consults the configured zone. -/
theorem localTimeInfo_ignores_configured_zone :
    envSplitZones.tzEnv = some "Etc/GMT-2" ∧
    envSplitZones.pytzNow "Etc/GMT-2" = some znConfigC3 ∧
    (localTimeInfoRead envSplitZones).1 ≠ [tzOffsetByte 7200, 0] := by
  decide

/-- C3 amended: the Current-Time payload is computed from the wall-clock
"now" in the configured zone whenever that zone resolves, but the
Local-Time-Information payload is always computed from the host local zone's
UTC offset, whatever the configured zone says. -/
theorem payload_zone_sources (env : Env) :
    (∀ name zn, env.tzEnv = some name → env.pytzNow name = some zn →
      (currentTimeRead env).1 = ctsEncode zn) ∧
    (localTimeInfoRead env).1
      = [tzOffsetByte (env.hostNow.utcOffsetSeconds.getD 0), 0] := by
  constructor
  · intro name zn htz hpy
    rw [currentTimeRead_fst]
    unfold resolvedNow
    simp [htz, hpy]
  · unfold localTimeInfoRead
    rcases h : env.hostNow.utcOffsetSeconds with _ | o <;> simp [h]

/-- C3 amended witness: at `envSplitZones` the Current-Time payload encodes
the configured zone's timestamp while the Local-Time payload is built from
the host offset. -/
theorem payload_zone_sources_witness :
    (envSplitZones.tzEnv = some "Etc/GMT-2" ∧
      envSplitZones.pytzNow "Etc/GMT-2" = some znConfigC3) ∧
    ((currentTimeRead envSplitZones).1 = ctsEncode znConfigC3 ∧
      (localTimeInfoRead envSplitZones).1
        = [tzOffsetByte (envSplitZones.hostNow.utcOffsetSeconds.getD 0), 0]) := by
  have h := payload_zone_sources envSplitZones
  exact ⟨⟨rfl, by decide⟩, h.1 "Etc/GMT-2" znConfigC3 rfl (by decide), h.2⟩

/-- The association list returned by `GetManagedObjects` has one pair per
service plus one per characteristic. -/
theorem gmo_len (app : Application) :
    (app.GetManagedObjects).length
      = app.services.length
        + (app.services.map fun s => s.characteristics.length).sum := by
  unfold Application.GetManagedObjects
  induction app.services with
  | nil => rfl
  | cons s rest ih =>
    simp only [List.flatMap_cons, List.length_append, List.length_cons,
      List.length_map, List.map_cons, List.sum_cons, ih]
    omega

/-- The service-level keys of the `GetManagedObjects` response are exactly
the service paths, in order. -/
theorem gmo_svc_keys (app : Application) :
    gmoServiceKeys app = app.services.map (fun s => s.path) := by
  unfold gmoServiceKeys Application.GetManagedObjects
  induction app.services with
  | nil => rfl
  | cons s rest ih =>
    simp only [List.flatMap_cons, List.filterMap_cons, List.filterMap_append,
      List.filterMap_map, List.map_cons, ih]
    simp [Function.comp]

/-- In a well-formed application, every characteristic entry of the response
declares a service path that is a service-level key of the same response. -/
theorem gmo_chrc_svc (app : Application) (hwf : app.WellFormed) :
    ∀ e ∈ app.GetManagedObjects, ∀ p : CharProps,
      e.2.2 = ObjProps.chrc p → p.servicePath ∈ gmoServiceKeys app := by
  intro e he p hp
  rw [gmo_svc_keys]
  unfold Application.GetManagedObjects at he
  rw [List.mem_flatMap] at he
  obtain ⟨s, hs, hin⟩ := he
  rcases List.mem_cons.mp hin with rfl | hin
  · simp at hp
  · rw [List.mem_map] at hin
    obtain ⟨c, hc, rfl⟩ := hin
    simp only at hp
    cases hp
    have := hwf s hs c hc
    exact List.mem_map.mpr ⟨s, hs, by simp [Characteristic.props, this]⟩

/-- C4: over an application with N services and M characteristics in total,
when the object paths are pairwise distinct — which D-Bus object export
enforces, and under which the Python dict holds exactly the pairs of this
association list — `GetManagedObjects` has exactly N + M distinct keys, its
service-level keys are the N service paths, and every characteristic entry's
declared `Service` path is one of those service-level keys. -/
theorem getManagedObjects_complete (app : Application)
    (hnd : (gmoKeys app).Nodup) (hwf : app.WellFormed) :
    ((gmoKeys app).dedup).length
      = app.services.length
        + (app.services.map fun s => s.characteristics.length).sum ∧
    gmoServiceKeys app = app.services.map (fun s => s.path) ∧
    (∀ e ∈ app.GetManagedObjects, ∀ p : CharProps,
      e.2.2 = ObjProps.chrc p → p.servicePath ∈ gmoServiceKeys app) := by
  refine ⟨?_, gmo_svc_keys app, gmo_chrc_svc app hwf⟩
  rw [List.dedup_eq_self.mpr hnd]
  unfold gmoKeys
  rw [List.length_map]
  exact gmo_len app

/-- C4 witness: the completeness theorem on the CTS application built by
`main` — one service, two characteristics, three entries. -/
theorem getManagedObjects_complete_witness :
    ((gmoKeys appCTS).Nodup ∧ appCTS.WellFormed) ∧
    ((gmoKeys appCTS).dedup).length
      = appCTS.services.length
        + (appCTS.services.map fun s => s.characteristics.length).sum ∧
    gmoServiceKeys appCTS = appCTS.services.map (fun s => s.path) :=
  ⟨⟨by decide, by decide⟩,
    (getManagedObjects_complete appCTS (by decide) (by decide)).1,
    (getManagedObjects_complete appCTS (by decide) (by decide)).2.1⟩

/-- C5: invoking `ReadValue` on a characteristic without a read handler
produces the `org.bluez.Error.NotSupported` D-Bus error on the stack's error
channel — the `Except.error` side of the embedding — never a generic fault.
The source raises before touching any attribute and the embedded handler is
a pure function of the characteristic and its environment, so no server
state changes. -/
theorem readValue_not_supported (c : Characteristic) (env : Env)
    (h : c.readBehavior = ReadBehavior.unsupported) :
    (c.ReadValue env).1 = Except.error notSupportedError ∧
    notSupportedError.name = "org.bluez.Error.NotSupported" := by
  refine ⟨?_, rfl⟩
  unfold Characteristic.ReadValue Characteristic.read_value
  simp [h]

/-- C5 witness: the NotSupported theorem on the concrete bare
characteristic. -/
theorem readValue_not_supported_witness :
    chrcBare.readBehavior = ReadBehavior.unsupported ∧
    ((chrcBare.ReadValue envScenario).1 = Except.error notSupportedError ∧
      notSupportedError.name = "org.bluez.Error.NotSupported") :=
  ⟨by decide, readValue_not_supported chrcBare envScenario rfl⟩

/-- A mutation sequence with no `add_service_uuid` leaves the backing
`service_uuids` field untouched. -/
theorem applyOps_service_uuids_pres (ops : List AdvOp) (a : Advertisement)
    (h : ∀ u, AdvOp.addServiceUUID u ∉ ops) :
    (a.applyOps ops).service_uuids = a.service_uuids := by
  induction ops generalizing a with
  | nil => rfl
  | cons op rest ih =>
    have hrest : ∀ u, AdvOp.addServiceUUID u ∉ rest :=
      fun u hm => h u (List.mem_cons_of_mem _ hm)
    unfold Advertisement.applyOps
    rw [List.foldl_cons]
    have step : (a.applyOp op).service_uuids = a.service_uuids := by
      cases op with
      | addServiceUUID u => exact absurd (List.mem_cons_self _ _) (h u)
      | addLocalName n => rfl
      | setIncludeTxPower b => rfl
    calc (List.foldl Advertisement.applyOp (a.applyOp op) rest).service_uuids
        = (a.applyOp op).service_uuids := ih (a.applyOp op) hrest
      _ = a.service_uuids := step

/-- A mutation sequence with no `add_local_name` leaves the `local_name`
field untouched. -/
theorem applyOps_local_name_pres (ops : List AdvOp) (a : Advertisement)
    (h : ∀ n, AdvOp.addLocalName n ∉ ops) :
    (a.applyOps ops).local_name = a.local_name := by
  induction ops generalizing a with
  | nil => rfl
  | cons op rest ih =>
    have hrest : ∀ n, AdvOp.addLocalName n ∉ rest :=
      fun n hm => h n (List.mem_cons_of_mem _ hm)
    unfold Advertisement.applyOps
    rw [List.foldl_cons]
    have step : (a.applyOp op).local_name = a.local_name := by
      cases op with
      | addServiceUUID u => rfl
      | addLocalName n => exact absurd (List.mem_cons_self _ _) (h n)
      | setIncludeTxPower b => rfl
    calc (List.foldl Advertisement.applyOp (a.applyOp op) rest).local_name
        = (a.applyOp op).local_name := ih (a.applyOp op) hrest
      _ = a.local_name := step

/-- With `service_uuids` still `None`, the `ServiceUUIDs` key is not in the
published property map. -/
theorem serviceUUIDs_key_absent (a : Advertisement) (h : a.service_uuids = none) :
    "ServiceUUIDs" ∉ (a.adv_properties).map Prod.fst := by
  unfold Advertisement.adv_properties
  rw [h]
  rcases hl : a.local_name with _ | n <;> rcases hb : a.include_tx_power <;> simp

/-- With `local_name` still `None`, the `LocalName` key is not in the
published property map. -/
theorem localName_key_absent (a : Advertisement) (h : a.local_name = none) :
    "LocalName" ∉ (a.adv_properties).map Prod.fst := by
  unfold Advertisement.adv_properties
  rw [h]
  rcases hs : a.service_uuids with _ | l <;> rcases hb : a.include_tx_power <;> simp

/-- C6: for every advertisement reachable from construction by any sequence
of mutations, the two omissions hold independently: `get_properties` omits
the `ServiceUUIDs` key entirely whenever `add_service_uuid` was never called
— whatever the other fields hold — and omits the `LocalName` key entirely
whenever `add_local_name` was never called; an absent field has no key at
all rather than a null or empty value. -/
theorem advertisement_omits_unset_fields (index : Nat) (t : String)
    (ops : List AdvOp) :
    ((∀ u, AdvOp.addServiceUUID u ∉ ops) →
      "ServiceUUIDs" ∉
        ((((Advertisement.create index t).applyOps ops)).adv_properties).map Prod.fst) ∧
    ((∀ n, AdvOp.addLocalName n ∉ ops) →
      "LocalName" ∉
        ((((Advertisement.create index t).applyOps ops)).adv_properties).map Prod.fst) := by
  constructor
  · intro hs
    exact serviceUUIDs_key_absent _
      (by rw [applyOps_service_uuids_pres ops _ hs]; rfl)
  · intro hn
    exact localName_key_absent _
      (by rw [applyOps_local_name_pres ops _ hn]; rfl)

/-- C6 witness: the two omissions at mixed concrete mutation sequences — a
local name set and TX power enabled but no UUID added still omits
`ServiceUUIDs`, and a UUID added but no local name set still omits
`LocalName`. -/
theorem advertisement_omits_unset_fields_witness :
    "ServiceUUIDs" ∉
      (((Advertisement.create 0 "peripheral").applyOps
        [AdvOp.addLocalName "HomeAssistant-CTS",
          AdvOp.setIncludeTxPower true]).adv_properties).map Prod.fst ∧
    "LocalName" ∉
      (((Advertisement.create 0 "peripheral").applyOps
        [AdvOp.addServiceUUID CTS_SERVICE_UUID]).adv_properties).map Prod.fst :=
  ⟨(advertisement_omits_unset_fields 0 "peripheral"
      [AdvOp.addLocalName "HomeAssistant-CTS",
        AdvOp.setIncludeTxPower true]).1 (by simp),
    (advertisement_omits_unset_fields 0 "peripheral"
      [AdvOp.addServiceUUID CTS_SERVICE_UUID]).2 (by simp)⟩

/-- C9: for each published object kind, `GetAll` on any interface other than
the single implemented one fails with the InvalidArguments D-Bus error, and
on the implemented interface returns that object's property map. -/
theorem getAll_interface_check :
    (∀ (s : Service) (interface : String),
      (interface ≠ GATT_SERVICE_IFACE →
        Service.GetAll s interface = Except.error invalidArgumentsError) ∧
      Service.GetAll s GATT_SERVICE_IFACE = Except.ok s.props) ∧
    (∀ (c : Characteristic) (interface : String),
      (interface ≠ GATT_CHRC_IFACE →
        Characteristic.GetAll c interface = Except.error invalidArgumentsError) ∧
      Characteristic.GetAll c GATT_CHRC_IFACE = Except.ok c.props) ∧
    (∀ (a : Advertisement) (interface : String),
      (interface ≠ LE_ADVERTISEMENT_IFACE →
        Advertisement.GetAll a interface = Except.error invalidArgumentsError) ∧
      Advertisement.GetAll a LE_ADVERTISEMENT_IFACE = Except.ok a.adv_properties) := by
  refine ⟨fun s i => ⟨fun h => ?_, ?_⟩, fun c i => ⟨fun h => ?_, ?_⟩,
    fun a i => ⟨fun h => ?_, ?_⟩⟩ <;>
    first
      | simp [Service.GetAll, Characteristic.GetAll, Advertisement.GetAll, h]
      | simp [Service.GetAll, Characteristic.GetAll, Advertisement.GetAll]

/-- C9 witness: the interface check at the fixtures, with the concrete
unknown interface name `bogus`. -/
theorem getAll_interface_check_witness :
    ("bogus" ≠ GATT_SERVICE_IFACE ∧ "bogus" ≠ GATT_CHRC_IFACE ∧
      "bogus" ≠ LE_ADVERTISEMENT_IFACE) ∧
    (Service.GetAll svcPlain "bogus" = Except.error invalidArgumentsError ∧
      Service.GetAll svcPlain GATT_SERVICE_IFACE = Except.ok svcPlain.props ∧
      Characteristic.GetAll chrcBare "bogus" = Except.error invalidArgumentsError ∧
      Characteristic.GetAll chrcBare GATT_CHRC_IFACE = Except.ok chrcBare.props ∧
      Advertisement.GetAll advInit "bogus" = Except.error invalidArgumentsError ∧
      Advertisement.GetAll advInit LE_ADVERTISEMENT_IFACE
        = Except.ok advInit.adv_properties) := by
  have h := getAll_interface_check
  exact ⟨⟨by decide, by decide, by decide⟩,
    (h.1 svcPlain "bogus").1 (by decide), (h.1 svcPlain GATT_SERVICE_IFACE).2,
    (h.2.1 chrcBare "bogus").1 (by decide), (h.2.1 chrcBare GATT_CHRC_IFACE).2,
    (h.2.2 advInit "bogus").1 (by decide),
    (h.2.2 advInit LE_ADVERTISEMENT_IFACE).2⟩

/-- C10: every advertisement property map contains the `Type` key, and
contains the `IncludeTxPower` key exactly when the flag is true — a false
flag leaves the key absent rather than published as boolean false. -/
theorem advertisement_type_and_txpower (a : Advertisement) :
    "Type" ∈ (a.adv_properties).map Prod.fst ∧
    ("IncludeTxPower" ∈ (a.adv_properties).map Prod.fst
      ↔ a.include_tx_power = true) := by
  constructor
  · simp [Advertisement.adv_properties]
  · unfold Advertisement.adv_properties
    rcases hs : a.service_uuids with _ | l <;>
      rcases hl : a.local_name with _ | n <;>
      rcases hb : a.include_tx_power <;>
      simp [hb]

end BluetoothCTS
